import Mathlib

/-
Verification of the mapthingy monitoring backend.

Shallow embedding of the classification, state-store commit, broadcast
fan-out, reconnect and threshold-configuration code, with theorems that
settle the frozen claims about the natural-language specification.

Python dictionaries are modelled as association lists (first match wins),
Python float readings and datetimes as rationals (datetimes in minutes),
and Python exceptions as the none case of Option-valued functions.
-/

namespace MapThingy

/-- Association-list model of a Python dict: lookup returns the first
binding for the key, if any. -/
def dget? {α : Type} : List (String × α) → String → Option α
  | [], _ => none
  | (k, v) :: rest, key => if k = key then some v else dget? rest key

/-- The model of Python dict.get(key, default). -/
def dgetD {α : Type} (d : List (String × α)) (key : String) (dflt : α) : α :=
  (dget? d key).getD dflt

/-- The model of Python dict.update(new): bindings of new shadow the old
ones under dget?. -/
def dupdate {α : Type} (d new : List (String × α)) : List (String × α) :=
  new ++ d

/-- Two-level dict lookup, the model of criteria[k1][k2]: none models the
KeyError that the Python expression raises when either key is absent. -/
def dget2? {α : Type} (d : List (String × List (String × α))) (k1 k2 : String) : Option α :=
  match dget? d k1 with
  | none => none
  | some inner => dget? inner k2

/-- Criteria dictionaries of status_config.py: metric name to a dict of
named rational bounds (the connection entry holds minutes). -/
abbrev Criteria := List (String × List (String × ℚ))

/-- Metric snapshots: metric name to a rational reading. -/
abbrev Snapshot := List (String × ℚ)

/-- The default criteria built in StatusCriteria.__init__. -/
def defaultCriteria : Criteria :=
  [("temperature", [("warning_threshold", 60), ("error_threshold", 80)]),
   ("pressure", [("warning_threshold", 3), ("error_threshold", 5)]),
   ("disk_volume", [("warning_threshold", 85), ("error_threshold", 95)]),
   ("speed", [("warning_threshold_low", 500), ("warning_threshold_high", 2000),
              ("error_threshold_low", 200), ("error_threshold_high", 2500)]),
   ("connection", [("timeout_minutes", 5), ("offline_threshold_minutes", 30)])]

/-- StatusCriteria.update_criteria: self.criteria.update(new_criteria);
return True. dict.update of a dict argument raises nothing, so the except
branch is unreachable and the call always returns True with the merged
criteria in place. -/
def update_criteria (c newC : Criteria) : Criteria × Bool :=
  (dupdate c newC, true)

/-- The system_data argument of StatusDeterminer.determine_status:
last_seen is None or a datetime (minutes), data is the metric snapshot. -/
structure SystemData where
  last_seen : Option ℚ
  data : Snapshot

/-- StatusDeterminer._is_connected_to_soson. last_seen of None is falsy,
giving False before any criteria lookup; otherwise the lookup of
criteria["connection"]["timeout_minutes"] can raise (none), and the result
compares now - last_seen against the timeout in minutes. -/
def is_connected_to_soson (crit : Criteria) (now : ℚ) (lastSeen : Option ℚ) : Option Bool :=
  match lastSeen with
  | none => some false
  | some ls =>
    match dget2? crit "connection" "timeout_minutes" with
    | none => none
    | some t => some (now - ls ≤ t)

/-- StatusDeterminer._is_system_accessible, same shape with
offline_threshold_minutes. -/
def is_system_accessible (crit : Criteria) (now : ℚ) (lastSeen : Option ℚ) : Option Bool :=
  match lastSeen with
  | none => some false
  | some ls =>
    match dget2? crit "connection" "offline_threshold_minutes" with
    | none => none
    | some t => some (now - ls ≤ t)

/-- StatusDeterminer._has_errors. Each reading is data.get(name, 0) - a
missing metric reads as 0 - and each criteria lookup can raise (none).
The checks run in source order with Python short-circuiting: a breach
returns True before later lookups happen. All comparisons are strict. -/
def has_errors (crit : Criteria) (data : Snapshot) : Option Bool :=
  match dget2? crit "temperature" "error_threshold" with
  | none => none
  | some tErr =>
    if dgetD data "temperature" 0 > tErr then some true else
    match dget2? crit "pressure" "error_threshold" with
    | none => none
    | some pErr =>
      if dgetD data "pressure" 0 > pErr then some true else
      match dget2? crit "disk_volume" "error_threshold" with
      | none => none
      | some dErr =>
        if dgetD data "disk_volume" 0 > dErr then some true else
        match dget2? crit "speed" "error_threshold_low" with
        | none => none
        | some sLow =>
          if dgetD data "speed" 0 < sLow then some true else
          match dget2? crit "speed" "error_threshold_high" with
          | none => none
          | some sHigh =>
            if dgetD data "speed" 0 > sHigh then some true else some false

/-- StatusDeterminer._has_warnings, same shape with the warning bounds. -/
def has_warnings (crit : Criteria) (data : Snapshot) : Option Bool :=
  match dget2? crit "temperature" "warning_threshold" with
  | none => none
  | some tWarn =>
    if dgetD data "temperature" 0 > tWarn then some true else
    match dget2? crit "pressure" "warning_threshold" with
    | none => none
    | some pWarn =>
      if dgetD data "pressure" 0 > pWarn then some true else
      match dget2? crit "disk_volume" "warning_threshold" with
      | none => none
      | some dWarn =>
        if dgetD data "disk_volume" 0 > dWarn then some true else
        match dget2? crit "speed" "warning_threshold_low" with
        | none => none
        | some sLow =>
          if dgetD data "speed" 0 < sLow then some true else
          match dget2? crit "speed" "warning_threshold_high" with
          | none => none
          | some sHigh =>
            if dgetD data "speed" 0 > sHigh then some true else some false

/-- The try body of StatusDeterminer.determine_status: the five checks in
source order; none models an exception escaping the body. -/
def determine_status_core (crit : Criteria) (now : ℚ) (sys : SystemData) : Option String :=
  match is_connected_to_soson crit now sys.last_seen with
  | none => none
  | some conn =>
    if !conn then some "grey" else
    match is_system_accessible crit now sys.last_seen with
    | none => none
    | some acc =>
      if !acc then some "black" else
      match has_errors crit sys.data with
      | none => none
      | some err =>
        if err then some "red" else
        match has_warnings crit sys.data with
        | none => none
        | some warn => if warn then some "yellow" else some "green"

/-- StatusDeterminer.determine_status: the try body, with the except
branch mapping any exception to "grey". -/
def determine_status (crit : Criteria) (now : ℚ) (sys : SystemData) : String :=
  (determine_status_core crit now sys).getD "grey"

/-! Collector side: machine_config.py threshold constants and
SinterCastMachineCollector.determine_machine_status of
machine_data_collector.py. -/

/-- machine_config.py TEMPERATURE_WARNING. -/
def TEMPERATURE_WARNING : ℚ := 60
/-- machine_config.py TEMPERATURE_CRITICAL. -/
def TEMPERATURE_CRITICAL : ℚ := 80
/-- machine_config.py PRESSURE_WARNING. -/
def PRESSURE_WARNING : ℚ := 3
/-- machine_config.py PRESSURE_CRITICAL. -/
def PRESSURE_CRITICAL : ℚ := 5
/-- machine_config.py SPEED_MINIMUM. -/
def SPEED_MINIMUM : ℚ := 500

/-- SinterCastMachineCollector.determine_machine_status: readings default
to 0 via sensor_data.get(name, 0), and the critical and warning
comparisons are non-strict (>=), unlike the backend classifier. -/
def determine_machine_status (sensor_data : Snapshot) : String :=
  let temperature := dgetD sensor_data "temperature" 0
  let pressure := dgetD sensor_data "pressure" 0
  let speed := dgetD sensor_data "speed" 0
  if temperature ≥ TEMPERATURE_CRITICAL ∨ pressure ≥ PRESSURE_CRITICAL then "red"
  else if temperature ≥ TEMPERATURE_WARNING ∨ pressure ≥ PRESSURE_WARNING ∨ speed < SPEED_MINIMUM then "yellow"
  else if speed = 0 then "black"
  else "green"

/-! The Unit State Store commit path: main.py update_machine_status,
after the machine lookup has succeeded (the 404 branch raises before any
mutation and is not modelled further). -/

/-- The mutable per-machine record of SAMPLE_MACHINES that the commit
path touches: status string, last_seen timestamp, metric data. -/
structure Machine where
  status : String
  last_seen : ℚ
  data : Snapshot

/-- The body of a MachineUpdate request. -/
structure MachineUpdate where
  status : String
  data : Snapshot
  timestamp : ℚ

/-- The JSON object passed to manager.broadcast by update_machine_status. -/
structure BroadcastMsg where
  machine_id : String
  status : String
  data : Snapshot
  timestamp : ℚ
deriving DecidableEq

/-- main.py update_machine_status commit: unconditionally sets
machine["status"] and machine["last_seen"], merges update.data into
machine["data"], then awaits exactly one manager.broadcast call; the
returned list holds the messages broadcast during the call. -/
def update_machine_status (machine_id : String) (m : Machine) (u : MachineUpdate) :
    Machine × List BroadcastMsg :=
  ({ status := u.status, last_seen := u.timestamp, data := dupdate m.data u.data },
   [{ machine_id := machine_id, status := u.status, data := u.data, timestamp := u.timestamp }])

/-! Broadcast Hub: ConnectionManager.broadcast of main.py. The Python
for loop iterates the live active_connections list by index while the
except branch calls active_connections.remove(connection), exactly the
CPython iteration semantics modelled here: the cursor i advances by one
after each body run even when the body shrank the list. Connections are
identified by naturals; send_fails c is true when connection.send_text
raises for c. -/

/-- One pass of the for loop from cursor position i: returns the final
active_connections list and the connections whose send succeeded. -/
def broadcast_go (send_fails : Nat → Bool) :
    List Nat → Nat → List Nat → List Nat × List Nat
  | lst, i, sent =>
    if h : i < lst.length then
      let c := lst.get ⟨i, h⟩
      if send_fails c then broadcast_go send_fails (lst.erase c) (i + 1) sent
      else broadcast_go send_fails lst (i + 1) (sent ++ [c])
    else (lst, sent)
termination_by lst i _ => lst.length - i
decreasing_by
  · have hm : lst.get ⟨i, h⟩ ∈ lst := lst.get_mem i h
    have := List.length_erase_of_mem hm
    omega
  · omega

/-- ConnectionManager.broadcast: run the loop over the current
subscriber list; first component is the surviving subscriber list,
second the subscribers that received the message. -/
def broadcast (conns : List Nat) (send_fails : Nat → Bool) : List Nat × List Nat :=
  broadcast_go send_fails conns 0 []

/-! Reconnecting Feed Client: MachineWebSocketClient of api_client.py. -/

/-- The client state touched by the reconnect logic: the running flag,
the attempt counter and its configured maximum (reconnect_interval is
only slept on and does not influence control flow). -/
structure WSClient where
  running : Bool
  max_reconnect_attempts : Nat
  reconnect_attempts : Nat
deriving DecidableEq

/-- MachineWebSocketClient.__init__: running False,
max_reconnect_attempts as configured (10 in source), attempts 0. -/
def WSClient.init (maxAttempts : Nat) : WSClient :=
  { running := false, max_reconnect_attempts := maxAttempts, reconnect_attempts := 0 }

/-- MachineWebSocketClient.close: sets running to False (and closes any
open socket, which holds no modelled state). -/
def WSClient.stop_client (c : WSClient) : WSClient :=
  { c with running := false }

/-- MachineWebSocketClient.handle_reconnect: when the counter is below
the maximum, increment it, sleep, and call connect; the Bool reports
whether a connect attempt is initiated. The guard reads only the
counter: the running flag is never consulted. -/
def handle_reconnect (c : WSClient) : WSClient × Bool :=
  if c.reconnect_attempts < c.max_reconnect_attempts then
    ({ c with reconnect_attempts := c.reconnect_attempts + 1 }, true)
  else (c, false)

/-- What one connect() call with outcome ok does before control reaches
handle_reconnect: on success (true) connect sets running and resets the
counter to 0, and the connection is later lost so listen falls through
to handle_reconnect; on failure (false) connect raises and calls
handle_reconnect on the unchanged state. -/
def reconnect_step (c : WSClient) (ok : Bool) : WSClient × Bool :=
  handle_reconnect (if ok then { c with running := true, reconnect_attempts := 0 } else c)

/-- The reconnect engine unfolded over the outcomes of successive
connect() calls: counts how many connect attempts run. -/
def connect_attempts (c : WSClient) : List Bool → Nat
  | [] => 0
  | ok :: rest =>
    1 + if (reconnect_step c ok).2 then connect_attempts (reconnect_step c ok).1 rest else 0

/-- The successive values of reconnect_attempts observed after each
handle_reconnect of the same unfolding. -/
def counter_trace (c : WSClient) : List Bool → List Nat
  | [] => []
  | ok :: rest =>
    (reconnect_step c ok).1.reconnect_attempts ::
      if (reconnect_step c ok).2 then counter_trace (reconnect_step c ok).1 rest else []

end MapThingy

namespace MapThingy

/-! Theorems. Helper lemmas come first, then one theorem per claim with
its witness or counterexample. -/

/-- Helper: reconnect_step never changes the configured maximum. -/
theorem reconnect_step_max (c : WSClient) (ok : Bool) :
    (reconnect_step c ok).1.max_reconnect_attempts = c.max_reconnect_attempts := by
  unfold reconnect_step handle_reconnect
  split_ifs <;> rfl

/-- Helper: reconnect_step keeps the attempt counter at or below the
configured maximum. -/
theorem reconnect_step_counter_le (c : WSClient) (ok : Bool)
    (hc : c.reconnect_attempts ≤ c.max_reconnect_attempts) :
    (reconnect_step c ok).1.reconnect_attempts ≤ c.max_reconnect_attempts := by
  unfold reconnect_step handle_reconnect
  split_ifs <;> simp_all <;> omega

/-- Helper: every counter value observed along any outcome sequence
stays at or below the configured maximum. -/
theorem counter_trace_le (outs : List Bool) :
    ∀ c : WSClient, c.reconnect_attempts ≤ c.max_reconnect_attempts →
      ∀ v ∈ counter_trace c outs, v ≤ c.max_reconnect_attempts := by
  induction outs with
  | nil =>
    intro c _ v hv
    simp [counter_trace] at hv
  | cons ok rest ih =>
    intro c hc v hv
    simp only [counter_trace, List.mem_cons] at hv
    rcases hv with rfl | hv
    · exact reconnect_step_counter_le c ok hc
    · by_cases h2 : (reconnect_step c ok).2
      · rw [if_pos h2] at hv
        have hb : (reconnect_step c ok).1.reconnect_attempts ≤
            (reconnect_step c ok).1.max_reconnect_attempts := by
          rw [reconnect_step_max]; exact reconnect_step_counter_le c ok hc
        have := ih (reconnect_step c ok).1 hb v hv
        rwa [reconnect_step_max] at this
      · rw [if_neg h2] at hv
        simp at hv

/-- Helper: from a state with k attempts left, an all-failure outcome
sequence yields exactly k + 1 connect attempts, however many further
failure outcomes are available. -/
theorem connect_attempts_all_fail (k : Nat) :
    ∀ (c : WSClient) (n : Nat),
      c.max_reconnect_attempts - c.reconnect_attempts = k →
      connect_attempts c (List.replicate (k + 1 + n) false) = k + 1 := by
  induction k with
  | zero =>
    intro c n hk
    have hge : ¬ c.reconnect_attempts < c.max_reconnect_attempts := by omega
    rw [show 0 + 1 + n = n + 1 by omega, List.replicate_succ]
    simp [connect_attempts, reconnect_step, handle_reconnect, hge]
  | succ k ih =>
    intro c n hk
    have hlt : c.reconnect_attempts < c.max_reconnect_attempts := by omega
    rw [show k + 1 + 1 + n = (k + 1 + n) + 1 by omega, List.replicate_succ]
    have hstep : reconnect_step c false =
        ({ c with reconnect_attempts := c.reconnect_attempts + 1 }, true) := by
      simp [reconnect_step, handle_reconnect, hlt]
    rw [connect_attempts, hstep]
    simp only [if_true]
    rw [ih { c with reconnect_attempts := c.reconnect_attempts + 1 } n (by simp; omega)]
    omega

/-- Helper: the try body of determine_status either raises (none) or
returns one of the five status strings. -/
theorem determine_status_core_cases (crit : Criteria) (now : ℚ) (sys : SystemData) :
    determine_status_core crit now sys = none
    ∨ determine_status_core crit now sys = some "grey"
    ∨ determine_status_core crit now sys = some "black"
    ∨ determine_status_core crit now sys = some "red"
    ∨ determine_status_core crit now sys = some "yellow"
    ∨ determine_status_core crit now sys = some "green" := by
  unfold determine_status_core
  repeat' split
  all_goals simp_all

/-- C1: a unit whose last_seen lies further in the past than the
configured liveness window (timeout_minutes) is classified "grey"
or "black" and never "red" or "yellow", whatever readings its snapshot
holds; and the five states are decided in the fixed priority order
grey (DISCONNECTED), black (UNREACHABLE), red (CRITICAL),
yellow (WARNING), green (HEALTHY). -/
theorem c1_staleness_priority (crit : Criteria) (now ls t : ℚ) (sys : SystemData)
    (ht : dget2? crit "connection" "timeout_minutes" = some t)
    (hstale : t < now - ls) :
    (∀ d : Snapshot,
      (determine_status crit now ⟨some ls, d⟩ = "grey"
        ∨ determine_status crit now ⟨some ls, d⟩ = "black")
      ∧ determine_status crit now ⟨some ls, d⟩ ≠ "red"
      ∧ determine_status crit now ⟨some ls, d⟩ ≠ "yellow")
    ∧ (is_connected_to_soson crit now sys.last_seen = some false →
        determine_status crit now sys = "grey")
    ∧ (is_connected_to_soson crit now sys.last_seen = some true →
       is_system_accessible crit now sys.last_seen = some false →
        determine_status crit now sys = "black")
    ∧ (is_connected_to_soson crit now sys.last_seen = some true →
       is_system_accessible crit now sys.last_seen = some true →
       has_errors crit sys.data = some true →
        determine_status crit now sys = "red")
    ∧ (is_connected_to_soson crit now sys.last_seen = some true →
       is_system_accessible crit now sys.last_seen = some true →
       has_errors crit sys.data = some false →
       has_warnings crit sys.data = some true →
        determine_status crit now sys = "yellow")
    ∧ (is_connected_to_soson crit now sys.last_seen = some true →
       is_system_accessible crit now sys.last_seen = some true →
       has_errors crit sys.data = some false →
       has_warnings crit sys.data = some false →
        determine_status crit now sys = "green") := by
  refine ⟨?_, ?_, ?_, ?_, ?_, ?_⟩
  · intro d
    have hgrey : determine_status crit now ⟨some ls, d⟩ = "grey" := by
      simp [determine_status, determine_status_core, is_connected_to_soson, ht,
        not_le.mpr hstale]
    refine ⟨Or.inl hgrey, ?_, ?_⟩ <;> simp [hgrey]
  · intro h1
    simp [determine_status, determine_status_core, h1]
  · intro h1 h2
    simp [determine_status, determine_status_core, h1, h2]
  · intro h1 h2 h3
    simp [determine_status, determine_status_core, h1, h2, h3]
  · intro h1 h2 h3 h4
    simp [determine_status, determine_status_core, h1, h2, h3, h4]
  · intro h1 h2 h3 h4
    simp [determine_status, determine_status_core, h1, h2, h3, h4]

/-- C1 witness: under the default criteria a unit 100 minutes stale with
a critical-looking temperature of 100 is classified grey, not red. -/
theorem c1_staleness_priority_witness :
    (5 : ℚ) < 100 - 0
    ∧ (determine_status defaultCriteria 100 ⟨some 0, [("temperature", 100)]⟩ = "grey"
        ∨ determine_status defaultCriteria 100 ⟨some 0, [("temperature", 100)]⟩ = "black") :=
  ⟨by norm_num,
   (((c1_staleness_priority defaultCriteria 100 0 5 ⟨some 0, [("temperature", 100)]⟩
      (by rfl) (by norm_num)).1 [("temperature", 100)]).1)⟩

/-- C2 counterexample: in the collector determine_machine_status a
temperature reading exactly equal to TEMPERATURE_CRITICAL is classified
"red", because its comparisons are non-strict, refuting the claim that
every classification site treats a reading equal to the error bound as
at most a warning. -/
theorem c2_collector_boundary_cx :
    dgetD [("temperature", (80 : ℚ))] "temperature" 0 = TEMPERATURE_CRITICAL
    ∧ determine_machine_status [("temperature", 80)] = "red" := by
  constructor
  · rfl
  · decide

/-- C2 (amended): in the backend classifier the bounds are strict: a
snapshot whose every reading equals its error bound produces no error
breach, one whose every reading equals its warning bound produces no
warning breach, and under the default criteria such snapshots classify
as "yellow" (at most a warning) and "green" respectively. -/
theorem c2_strict_boundary (crit : Criteria)
    (te pe de selo sehi tw pw dw swlo swhi : ℚ)
    (hte : dget2? crit "temperature" "error_threshold" = some te)
    (hpe : dget2? crit "pressure" "error_threshold" = some pe)
    (hde : dget2? crit "disk_volume" "error_threshold" = some de)
    (hselo : dget2? crit "speed" "error_threshold_low" = some selo)
    (hsehi : dget2? crit "speed" "error_threshold_high" = some sehi)
    (htw : dget2? crit "temperature" "warning_threshold" = some tw)
    (hpw : dget2? crit "pressure" "warning_threshold" = some pw)
    (hdw : dget2? crit "disk_volume" "warning_threshold" = some dw)
    (hswlo : dget2? crit "speed" "warning_threshold_low" = some swlo)
    (hswhi : dget2? crit "speed" "warning_threshold_high" = some swhi)
    (hse : selo ≤ sehi) (hsw : swlo ≤ swhi) :
    has_errors crit
      [("temperature", te), ("pressure", pe), ("disk_volume", de), ("speed", selo)] = some false
    ∧ has_warnings crit
      [("temperature", tw), ("pressure", pw), ("disk_volume", dw), ("speed", swlo)] = some false
    ∧ determine_status defaultCriteria 10
        ⟨some 10, [("temperature", 80), ("pressure", 5), ("disk_volume", 95), ("speed", 200)]⟩
        = "yellow"
    ∧ determine_status defaultCriteria 10
        ⟨some 10, [("temperature", 60), ("pressure", 3), ("disk_volume", 85), ("speed", 500)]⟩
        = "green" := by
  refine ⟨?_, ?_, ?_, ?_⟩
  · simp [has_errors, dgetD, dget?, hte, hpe, hde, hselo, hsehi, lt_irrefl, not_lt.mpr hse]
  · simp [has_warnings, dgetD, dget?, htw, hpw, hdw, hswlo, hswhi, lt_irrefl, not_lt.mpr hsw]
  · norm_num +decide [determine_status, determine_status_core, is_connected_to_soson,
      is_system_accessible, has_errors, has_warnings, dget2?, dget?, dgetD, defaultCriteria]
  · norm_num +decide [determine_status, determine_status_core, is_connected_to_soson,
      is_system_accessible, has_errors, has_warnings, dget2?, dget?, dgetD, defaultCriteria]

/-- C2 witness: the strict-boundary theorem applied at the default
criteria and their own bound values. -/
theorem c2_strict_boundary_witness :
    ((200 : ℚ) ≤ 2500 ∧ (500 : ℚ) ≤ 2000)
    ∧ has_errors defaultCriteria
        [("temperature", 80), ("pressure", 5), ("disk_volume", 95), ("speed", 200)] = some false
    ∧ has_warnings defaultCriteria
        [("temperature", 60), ("pressure", 3), ("disk_volume", 85), ("speed", 500)] = some false := by
  have h := c2_strict_boundary defaultCriteria 80 5 95 200 2500 60 3 85 500 2000
    (by rfl) (by rfl) (by rfl) (by rfl) (by rfl) (by rfl) (by rfl) (by rfl) (by rfl) (by rfl)
    (by norm_num) (by norm_num)
  exact ⟨⟨by norm_num, by norm_num⟩, h.1, h.2.1⟩

/-- C3: a connected, timely unit whose snapshot lacks the speed reading
is classified "red", because each reading defaults to 0 through
data.get(name, 0) and 0 lies below the lower speed error bound - the
code treats the missing metric as zero and reports a false breach. -/
theorem c3_missing_metric_bug :
    dget? [("temperature", (40 : ℚ)), ("pressure", 2), ("disk_volume", 50)] "speed" = none
    ∧ is_connected_to_soson defaultCriteria 10 (some 8) = some true
    ∧ is_system_accessible defaultCriteria 10 (some 8) = some true
    ∧ determine_status defaultCriteria 10
        ⟨some 8, [("temperature", 40), ("pressure", 2), ("disk_volume", 50)]⟩ = "red" := by
  refine ⟨by rfl, ?_, ?_, ?_⟩ <;>
    norm_num +decide [determine_status, determine_status_core, is_connected_to_soson,
      is_system_accessible, has_errors, has_warnings, dget2?, dget?, dgetD, defaultCriteria]

/-- C4: the commit path has no timestamp guard: applying a sample with
timestamp 50 to a machine whose recorded last_seen is 100 overwrites
last_seen with the older value 50, regressing the authoritative state. -/
theorem c4_lastseen_regression_bug :
    (update_machine_status "m1" ⟨"green", 100, [("temperature", 40)]⟩
        ⟨"red", [("temperature", 90)], 50⟩).1.last_seen = 50
    ∧ (update_machine_status "m1" ⟨"green", 100, [("temperature", 40)]⟩
        ⟨"red", [("temperature", 90)], 50⟩).1.status = "red"
    ∧ (50 : ℚ) < 100 := by
  refine ⟨rfl, rfl, by norm_num⟩

/-- C5: broadcasting to subscribers 1, 2, 3 where the send to 1 fails
removes 1 from the subscriber list, but because the list is mutated
while the for loop iterates it, subscriber 2 is skipped and only 3
receives the event - a dead subscriber makes a live one miss the
broadcast. -/
theorem c5_broadcast_skip_bug :
    broadcast [1, 2, 3] (fun c => c == 1) = ([2, 3], [3])
    ∧ 1 ∉ (broadcast [1, 2, 3] (fun c => c == 1)).1
    ∧ 2 ∈ (broadcast [1, 2, 3] (fun c => c == 1)).1
    ∧ 2 ∉ (broadcast [1, 2, 3] (fun c => c == 1)).2 := by
  have h : broadcast [1, 2, 3] (fun c => c == 1) = ([2, 3], [3]) := by
    simp [broadcast, broadcast_go]
  refine ⟨h, ?_, ?_, ?_⟩ <;> rw [h] <;> decide

/-- C6: a commit that changes neither the status nor the metric content
nor last_seen still emits a broadcast event: the broadcast call in
update_machine_status is unconditional, so no-op commits produce
duplicate events. -/
theorem c6_noop_commit_event_bug :
    (update_machine_status "m1" ⟨"green", 100, [("temperature", 40)]⟩
        ⟨"green", [("temperature", 40)], 100⟩).1.status = "green"
    ∧ (update_machine_status "m1" ⟨"green", 100, [("temperature", 40)]⟩
        ⟨"green", [("temperature", 40)], 100⟩).1.last_seen = 100
    ∧ dget? (update_machine_status "m1" ⟨"green", 100, [("temperature", 40)]⟩
        ⟨"green", [("temperature", 40)], 100⟩).1.data "temperature"
        = dget? [("temperature", 40)] "temperature"
    ∧ (update_machine_status "m1" ⟨"green", 100, [("temperature", 40)]⟩
        ⟨"green", [("temperature", 40)], 100⟩).2 ≠ [] := by
  refine ⟨rfl, rfl, by decide, by decide⟩

/-- C7: after the stop signal (running set to False) a reconnect
attempt still starts: handle_reconnect guards only on the attempt
counter and never consults the running flag, so a retry iteration that
wakes from its backoff sleep proceeds to connect. -/
theorem c7_stop_ignored_bug :
    (WSClient.stop_client ⟨true, 10, 0⟩).running = false
    ∧ (handle_reconnect (WSClient.stop_client ⟨true, 10, 0⟩)).2 = true := by
  decide

/-- C8: starting from a fresh client, an unbroken run of failed connect
attempts performs exactly max_reconnect_attempts + 1 connect calls (the
initial one plus the configured retries) no matter how many further
failure outcomes follow, and the retry counter never exceeds the
configured maximum along any outcome sequence. -/
theorem c8_reconnect_bound (maxAttempts n : Nat) (outs : List Bool) (v : Nat) :
    connect_attempts (WSClient.init maxAttempts) (List.replicate (maxAttempts + 1 + n) false)
      = maxAttempts + 1
    ∧ (v ∈ counter_trace (WSClient.init maxAttempts) outs → v ≤ maxAttempts) := by
  constructor
  · exact connect_attempts_all_fail maxAttempts (WSClient.init maxAttempts) n
      (by simp [WSClient.init])
  · intro hv
    have := counter_trace_le outs (WSClient.init maxAttempts) (by simp [WSClient.init]) v hv
    simpa [WSClient.init] using this

/-- C8 witness: with a maximum of 2, three failures and then silence
give exactly 3 connect calls, and the counter value 1 observed along a
two-failure run stays at or below 2. -/
theorem c8_reconnect_bound_witness :
    connect_attempts (WSClient.init 2) (List.replicate 3 false) = 3 ∧ 1 ≤ 2 :=
  ⟨(c8_reconnect_bound 2 0 [] 0).1, (c8_reconnect_bound 2 0 [false, false] 1).2 (by decide)⟩

/-- C9: update_criteria accepts a threshold update whose warning bound
(100) is more severe than its error bound (50): it returns True and the
prior temperature thresholds are replaced, so invalid bounds are neither
rejected nor is the prior state preserved. -/
theorem c9_invalid_update_accepted_bug :
    (update_criteria defaultCriteria
        [("temperature", [("warning_threshold", 100), ("error_threshold", 50)])]).2 = true
    ∧ dget2? (update_criteria defaultCriteria
        [("temperature", [("warning_threshold", 100), ("error_threshold", 50)])]).1
        "temperature" "warning_threshold" = some 100
    ∧ dget2? (update_criteria defaultCriteria
        [("temperature", [("warning_threshold", 100), ("error_threshold", 50)])]).1
        "temperature" "error_threshold" = some 50
    ∧ dget2? defaultCriteria "temperature" "warning_threshold" = some 60
    ∧ (50 : ℚ) < 100 := by
  refine ⟨rfl, by decide, by decide, by decide, by norm_num⟩

/-- C10: determine_status is total and always returns one of the five
status strings, and whenever the try body raises (evaluates to none)
the except branch maps the result to "grey". -/
theorem c10_total (crit : Criteria) (now : ℚ) (sys : SystemData) :
    determine_status crit now sys ∈ (["grey", "black", "red", "yellow", "green"] : List String)
    ∧ (determine_status_core crit now sys = none → determine_status crit now sys = "grey") := by
  constructor
  · rcases determine_status_core_cases crit now sys with h | h | h | h | h | h <;>
      simp [determine_status, h]
  · intro h
    simp [determine_status, h]

/-- C10 witness: with an empty criteria dictionary the connection lookup
raises, and the result is "grey". -/
theorem c10_total_witness :
    determine_status [] 0 ⟨some 0, []⟩ ∈ (["grey", "black", "red", "yellow", "green"] : List String)
    ∧ determine_status [] 0 ⟨some 0, []⟩ = "grey" :=
  ⟨(c10_total [] 0 ⟨some 0, []⟩).1, (c10_total [] 0 ⟨some 0, []⟩).2 (by rfl)⟩

end MapThingy
